import Mathlib

/-!
A shallow embedding of `src/script.py` (a keyboard/mouse → virtual gamepad
remapper) and proofs about it.

The script keeps global state: `left_analog` (four booleans for W/A/S/D),
`right_analog` (two clamped integers), `pressed_keys` (a dictionary of
currently held logical keys), `halt_inputs` (a boolean gate) and
`reset_timer` (at most one pending decay timer for the right stick).
Two event loops (`evdev_keyboard_listener`, `evdev_mouse_listener`) turn raw
evdev events into emissions on the virtual device.  We model one processing
step of each loop as a pure function from a state and a raw event to a new
state, a list of emissions and (for the keyboard loop) a quit flag, and the
timer as a generation counter so that cancel-and-replace is visible in the
state.
-/

/-- Logical key names, the values of the script's `key_map` dictionary.
`N1`/`N2` stand for the names `"1"`/`"2"`. -/
inductive LKey where
  | W | A | S | D | SPACE | Q | E | R | CTRL | ENTER | M
  | T | G | N1 | N2 | APOSTROPHE | ALT | SHIFT
deriving DecidableEq, Repr

/-- The uinput codes the script emits on (`controller.emit`). -/
inductive UCode where
  | ABS_X | ABS_Y | ABS_RX | ABS_RY | ABS_HAT0X | ABS_HAT0Y
  | BTN_A | BTN_B | BTN_X | BTN_Y | BTN_TL | BTN_TL2 | BTN_TR2
  | BTN_MODE | BTN_START | BTN_SELECT
deriving DecidableEq, Repr

/-- One `controller.emit(code, value, syn=...)` call.  `syn = false` models
`syn=False` (the flush between the two writes of a stick pair is
suppressed); plain `controller.emit(code, value)` has `syn = true`. -/
structure Emission where
  code : UCode
  value : Int
  syn : Bool
deriving DecidableEq, Repr

/-- `key_map`: evdev key codes → logical names, with the numeric values of
the `ecodes.KEY_*` constants the script uses (e.g. `KEY_W = 17`,
`KEY_APOSTROPHE = 40`; both CTRL, ALT and SHIFT variants map to one name). -/
def key_map (code : Nat) : Option LKey :=
  match code with
  | 17 => some .W       -- KEY_W
  | 30 => some .A       -- KEY_A
  | 31 => some .S       -- KEY_S
  | 32 => some .D       -- KEY_D
  | 57 => some .SPACE   -- KEY_SPACE
  | 16 => some .Q       -- KEY_Q
  | 18 => some .E       -- KEY_E
  | 19 => some .R       -- KEY_R
  | 29 => some .CTRL    -- KEY_LEFTCTRL
  | 97 => some .CTRL    -- KEY_RIGHTCTRL
  | 28 => some .ENTER   -- KEY_ENTER
  | 50 => some .M       -- KEY_M
  | 20 => some .T       -- KEY_T
  | 34 => some .G       -- KEY_G
  | 2 => some .N1       -- KEY_1
  | 3 => some .N2       -- KEY_2
  | 40 => some .APOSTROPHE -- KEY_APOSTROPHE
  | 56 => some .ALT     -- KEY_LEFTALT
  | 100 => some .ALT    -- KEY_RIGHTALT
  | 42 => some .SHIFT   -- KEY_LEFTSHIFT
  | 54 => some .SHIFT   -- KEY_RIGHTSHIFT
  | _ => none

/-- A raw evdev event: `event.type`, `event.code`, `event.value`.
`EV_KEY = 1`, `EV_REL = 2`; for keys, value 1 = press, 0 = release,
2 = auto-repeat; for `EV_REL`, `REL_X = 0`, `REL_Y = 1`. -/
structure RawEvent where
  etype : Nat
  code : Nat
  value : Int
deriving DecidableEq, Repr

/-- `DEFAULT_ANALOG_TILT = 32000` (script line 36). -/
def DEFAULT_ANALOG_TILT : Nat := 32000

/-- `ALT_ANALOG_TILT = 28000` (script line 37). -/
def ALT_ANALOG_TILT : Nat := 28000

/-- The whole mutable state of the script: `left_analog` (four booleans),
`pressed_keys` (dictionary, modelled as its truthiness function: `get`
returns a truthy value exactly on keys present with value `True`),
`halt_inputs`, `right_analog` (`rx`, `ry`), and the decay-timer bookkeeping.
`threading.Timer` objects are modelled by generation numbers: `timerGen`
counts timers ever started and `pendingTimer` holds the generation of the
currently pending (started, neither cancelled nor fired) timer, if any. -/
structure SysState where
  leftW : Bool
  leftA : Bool
  leftS : Bool
  leftD : Bool
  pressed_keys : LKey → Bool
  halt_inputs : Bool
  rx : Int
  ry : Int
  timerGen : Nat
  pendingTimer : Option Nat

/-- The script's initial globals: `left_analog` all `False` (line 24),
`right_analog = {"x": 0, "y": 0}` (line 25), `reset_timer = None`
(line 29), `halt_inputs = False` (line 40), `pressed_keys = {}`
(line 43). -/
def initState : SysState :=
  { leftW := false, leftA := false, leftS := false, leftD := false
    pressed_keys := fun _ => false
    halt_inputs := false
    rx := 0, ry := 0
    timerGen := 0, pendingTimer := none }

/-- The vector computed by `update_left_analog` (script lines 96-120) as a
function of the four held booleans and the ALT modifier.  The script sets
`dx, dy ∈ {-1, 0, 1}` from the held keys, returns `(0, 0)` when both are
zero, and otherwise emits `int(tilt * d / length)` with
`length = sqrt(dx*dx + dy*dy)`.  Since `dx, dy ∈ {-1, 0, 1}`, `length` is
`1` (single-axis, the quotient is the exact integer `tilt * d`) or `√2`
(diagonal, where Python's `int`, truncation toward zero, gives
`d * ⌊tilt / √2⌋` for `d = ±1`, and `⌊tilt / √2⌋ = Nat.sqrt (tilt² / 2)`
because `tilt²` is even and the float quotient is far from an integer for
both tilt constants). -/
def left_analog_value (w a s d altHeld : Bool) : Int × Int :=
  let tilt : Nat := if altHeld then ALT_ANALOG_TILT else DEFAULT_ANALOG_TILT
  let dx : Int := (if a then -1 else 0) + (if d then 1 else 0)
  let dy : Int := (if w then -1 else 0) + (if s then 1 else 0)
  if dx = 0 ∧ dy = 0 then (0, 0)
  else if dx = 0 ∨ dy = 0 then (dx * tilt, dy * tilt)
  else (dx * Nat.sqrt (tilt * tilt / 2), dy * Nat.sqrt (tilt * tilt / 2))

/-- The two `controller.emit` calls at the end of `update_left_analog`
(lines 122-123): `ABS_X` with `syn=False`, then `ABS_Y`. -/
def left_analog_emissions (s : SysState) : List Emission :=
  let p := left_analog_value s.leftW s.leftA s.leftS s.leftD
             (s.pressed_keys .ALT)
  [⟨.ABS_X, p.1, false⟩, ⟨.ABS_Y, p.2, true⟩]

theorem sqrt_half_sq_32000 : Nat.sqrt (32000 * 32000 / 2) = 22627 := by
  have h1 : 22627 ≤ Nat.sqrt (32000 * 32000 / 2) :=
    Nat.le_sqrt.mpr (by norm_num)
  have h2 : Nat.sqrt (32000 * 32000 / 2) < 22628 :=
    Nat.sqrt_lt.mpr (by norm_num)
  omega

theorem sqrt_half_sq_28000 : Nat.sqrt (28000 * 28000 / 2) = 19798 := by
  have h1 : 19798 ≤ Nat.sqrt (28000 * 28000 / 2) :=
    Nat.le_sqrt.mpr (by norm_num)
  have h2 : Nat.sqrt (28000 * 28000 / 2) < 19799 :=
    Nat.sqrt_lt.mpr (by norm_num)
  omega

/-- The claim's direction component `dx = (D?1:0) - (A?1:0)`. -/
def specDx (a d : Bool) : Int := (if d then 1 else 0) - (if a then 1 else 0)

/-- The claim's direction component `dy = (S?1:0) - (W?1:0)`. -/
def specDy (w s : Bool) : Int := (if s then 1 else 0) - (if w then 1 else 0)

/-- The claim's effective tilt constant: 28000 with ALT held, else 32000. -/
def specTilt (altHeld : Bool) : Int := if altHeld then 28000 else 32000

/-- Squared euclidean norm of an integer pair. -/
def sqnorm (p : Int × Int) : Int := p.1 * p.1 + p.2 * p.2

/-- C1 (amended): for every combination of W/A/S/D and ALT, the left-stick
recompute emits (0,0) exactly when both direction components are zero (no
key held, or opposing keys cancelling); for single-axis input it emits
`(dx·tilt, dy·tilt)`, whose magnitude is exactly the tilt constant; for
diagonal input it emits `(dx·⌊tilt/√2⌋, dy·⌊tilt/√2⌋)` (truncation toward
zero), whose magnitude is strictly below the tilt constant but within 2
units of it.  (The original claim's "magnitude equals the tilt constant
whenever at least one key is held" fails both for cancelling keys and,
exactly, for diagonals.) -/
theorem left_analog_value_characterization (w a s d altHeld : Bool) :
    (specDx a d = 0 ∧ specDy w s = 0 →
      left_analog_value w a s d altHeld = (0, 0)) ∧
    (¬(specDx a d = 0 ∧ specDy w s = 0) → (specDx a d = 0 ∨ specDy w s = 0) →
      left_analog_value w a s d altHeld =
        (specDx a d * specTilt altHeld, specDy w s * specTilt altHeld) ∧
      sqnorm (left_analog_value w a s d altHeld) =
        specTilt altHeld * specTilt altHeld) ∧
    (specDx a d ≠ 0 ∧ specDy w s ≠ 0 →
      left_analog_value w a s d altHeld =
        (specDx a d * Nat.sqrt ((specTilt altHeld).toNat ^ 2 / 2),
         specDy w s * Nat.sqrt ((specTilt altHeld).toNat ^ 2 / 2)) ∧
      (specTilt altHeld - 2) * (specTilt altHeld - 2) <
        sqnorm (left_analog_value w a s d altHeld) ∧
      sqnorm (left_analog_value w a s d altHeld) <
        specTilt altHeld * specTilt altHeld) := by
  cases w <;> cases a <;> cases s <;> cases d <;> cases altHeld <;>
    simp [left_analog_value, specDx, specDy, specTilt, sqnorm,
      DEFAULT_ANALOG_TILT, ALT_ANALOG_TILT,
      sqrt_half_sq_32000, sqrt_half_sq_28000] <;>
    norm_num [sqrt_half_sq_32000, sqrt_half_sq_28000]

/-- Witness for `left_analog_value_characterization`: at W+D held (diagonal)
without ALT the hypotheses of the third clause hold and the emitted pair is
`(22627, -22627)`, whose squared magnitude lies strictly between
`31998²` and `32000²`. -/
theorem left_analog_value_characterization_witness :
    left_analog_value true false false true false =
      ((1 : Int) * Nat.sqrt ((32000 : Int).toNat ^ 2 / 2),
       (-1 : Int) * Nat.sqrt ((32000 : Int).toNat ^ 2 / 2)) ∧
    ((32000 : Int) - 2) * ((32000 : Int) - 2) <
      sqnorm (left_analog_value true false false true false) ∧
    sqnorm (left_analog_value true false false true false) <
      (32000 : Int) * 32000 := by
  have h :=
    (left_analog_value_characterization true false false true false).2.2
      (by constructor <;> simp [specDx, specDy])
  simpa [specDx, specDy, specTilt] using h

/-- Counterexample to C1 as stated: with W and S both held (at least one
component key held) the output is `(0, 0)`, magnitude 0, not the tilt
constant; and with W and D held (diagonal) the output is
`(22627, -22627)`, whose magnitude differs from 32000 (squared:
1023962258 ≠ 1024000000). -/
theorem left_analog_value_c1_counterexample :
    left_analog_value true false true false false = (0, 0) ∧
    sqnorm (left_analog_value true false true false false) = 0 ∧
    left_analog_value true false false true false = (22627, -22627) ∧
    sqnorm (left_analog_value true false false true false) ≠ 32000 * 32000 := by
  refine ⟨by simp [left_analog_value], by simp [left_analog_value, sqnorm], ?_, ?_⟩ <;>
    simp [left_analog_value, sqnorm, DEFAULT_ANALOG_TILT, sqrt_half_sq_32000] <;>
    norm_num

/-- Python's `int()` conversion on a rational: truncation toward zero.
(`MOUSE_SENSITIVITY` is a float; we model it and the products
`dx * MOUSE_SENSITIVITY` as exact rationals.) -/
def truncQ (q : ℚ) : ℤ := if 0 ≤ q then ⌊q⌋ else ⌈q⌉

/-- `schedule_right_analog_reset` (script lines 139-145): cancel the pending
timer, if any, and start a fresh one.  In the generation model the new
timer gets the next generation number, so it is distinct from every timer
started earlier; the previously pending generation (if any) is no longer
pending. -/
def schedule_right_analog_reset (s : SysState) : SysState :=
  { s with timerGen := s.timerGen + 1, pendingTimer := some (s.timerGen + 1) }

/-- `update_right_analog(dx, dy)` (script lines 126-137):
`right_analog["x"] = max(min(x + int(dx * MOUSE_SENSITIVITY), 255), 0)`,
same for y; emit `ABS_RX` (`syn=False`) then `ABS_RY`; then reschedule the
decay timer. -/
def update_right_analog (sens : ℚ) (s : SysState) (dx dy : Int) :
    SysState × List Emission :=
  let nx := max (min (s.rx + truncQ (dx * sens)) 255) 0
  let ny := max (min (s.ry + truncQ (dy * sens)) 255) 0
  (schedule_right_analog_reset { s with rx := nx, ry := ny },
   [⟨.ABS_RX, nx, false⟩, ⟨.ABS_RY, ny, true⟩])

/-- `reset_right_analog` (script lines 147-155): set both components to 128
and emit `ABS_RX` (`syn=False`) then `ABS_RY`. -/
def reset_right_analog (s : SysState) : SysState × List Emission :=
  ({ s with rx := 128, ry := 128 },
   [⟨.ABS_RX, 128, false⟩, ⟨.ABS_RY, 128, true⟩])

/-- The decay timer firing: the pending timer runs `reset_right_analog` and
is thereafter no longer pending. -/
def fire_reset (s : SysState) : SysState × List Emission :=
  let r := reset_right_analog s
  ({ r.1 with pendingTimer := none }, r.2)

/-- The motion-update state change as the spec's words describe it
(modelled from the spec: `x' = clamp(x + round(dx*sensitivity), 0, 255)`,
with rounding instead of the code's truncation toward zero). -/
def update_right_analog_roundSpec (sens : ℚ) (s : SysState) (dx dy : Int) :
    Int × Int :=
  (max (min (s.rx + round ((dx : ℚ) * sens)) 255) 0,
   max (min (s.ry + round ((dy : ℚ) * sens)) 255) 0)

/-- C2 (amended): a motion update sets
`x' = clamp(x + trunc(dx*sensitivity), 0, 255)` (truncation toward zero —
not rounding to nearest — and same for y), emits the updated pair
(`ABS_RX` with the flush suppressed, then `ABS_RY`), and supersedes any
pending decay timer with a freshly started one (the new timer's generation
is new, so a previously pending timer is no longer pending).  Starting at
(128,128), motion (10,0) at sensitivity 1 yields (138,128). -/
theorem update_right_analog_spec (sens : ℚ) (s : SysState) (dx dy : Int)
    (hs : 0 < sens) :
    (update_right_analog sens s dx dy).1.rx =
      max (min (s.rx + truncQ (dx * sens)) 255) 0 ∧
    (update_right_analog sens s dx dy).1.ry =
      max (min (s.ry + truncQ (dy * sens)) 255) 0 ∧
    (update_right_analog sens s dx dy).2 =
      [⟨.ABS_RX, (update_right_analog sens s dx dy).1.rx, false⟩,
       ⟨.ABS_RY, (update_right_analog sens s dx dy).1.ry, true⟩] ∧
    (update_right_analog sens s dx dy).1.pendingTimer =
      some (s.timerGen + 1) ∧
    (update_right_analog sens s dx dy).1.timerGen = s.timerGen + 1 ∧
    (∀ g, s.pendingTimer = some g → g ≤ s.timerGen →
      (update_right_analog sens s dx dy).1.pendingTimer ≠ some g) ∧
    (update_right_analog (1 : ℚ) { initState with rx := 128, ry := 128 }
        10 0).1.rx = 138 ∧
    (update_right_analog (1 : ℚ) { initState with rx := 128, ry := 128 }
        10 0).1.ry = 128 := by
  refine ⟨rfl, rfl, rfl, rfl, rfl, ?_, ?_, ?_⟩
  · intro g _ hle
    have h : (update_right_analog sens s dx dy).1.pendingTimer =
        some (s.timerGen + 1) := rfl
    rw [h]
    simp only [Ne, Option.some.injEq]
    omega
  · have h10 : truncQ (10 : ℚ) = 10 := by norm_num [truncQ]
    simp [update_right_analog, schedule_right_analog_reset, initState, h10]
  · have h0 : truncQ (0 : ℚ) = 0 := by norm_num [truncQ]
    simp [update_right_analog, schedule_right_analog_reset, initState, h0]

/-- Witness for `update_right_analog_spec` at sensitivity 1, motion (10,0)
from (128,128). -/
theorem update_right_analog_spec_witness :
    (update_right_analog (1 : ℚ) { initState with rx := 128, ry := 128 }
        10 0).1.rx = 138 ∧
    (update_right_analog (1 : ℚ) { initState with rx := 128, ry := 128 }
        10 0).1.ry = 128 :=
  ⟨(update_right_analog_spec 1 { initState with rx := 128, ry := 128 } 10 0
      (by norm_num)).2.2.2.2.2.2.1,
   (update_right_analog_spec 1 { initState with rx := 128, ry := 128 } 10 0
      (by norm_num)).2.2.2.2.2.2.2⟩

/-- Counterexample to C2 as stated: at sensitivity 1/2 a motion of 3 ticks
from x = 128 gives `128 + int(1.5) = 129` in the code, while the claim's
`128 + round(1.5) = 130`. -/
theorem update_right_analog_c2_counterexample :
    (update_right_analog (1/2 : ℚ) { initState with rx := 128, ry := 128 }
        3 0).1.rx = 129 ∧
    (update_right_analog_roundSpec (1/2 : ℚ)
        { initState with rx := 128, ry := 128 } 3 0).1 = 130 ∧
    (129 : Int) ≠ 130 := by
  refine ⟨?_, ?_, by norm_num⟩
  · have h : truncQ ((3 : ℚ) * 2⁻¹) = 1 := by norm_num [truncQ]
    simp [update_right_analog, schedule_right_analog_reset, initState, h]
  · have h : round ((3 : ℚ) * 2⁻¹) = 2 := by norm_num [round_eq]
    simp [update_right_analog_roundSpec, initState, h]

/-- An operation that mutates `right_analog`: a motion update
(`update_right_analog`) or a decay-timer fire (`reset_right_analog`). -/
inductive ROp where
  | motion (dx dy : Int)
  | reset
deriving DecidableEq, Repr

/-- Apply one right-stick operation to the state. -/
def applyROp (sens : ℚ) (s : SysState) : ROp → SysState
  | .motion dx dy => (update_right_analog sens s dx dy).1
  | .reset => (fire_reset s).1

/-- Run a sequence of right-stick operations from a state. -/
def runROps (sens : ℚ) (s : SysState) (ops : List ROp) : SysState :=
  ops.foldl (applyROp sens) s

/-- Both right-stick components lie in `[0, 255]`. -/
def rightInRange (s : SysState) : Prop :=
  0 ≤ s.rx ∧ s.rx ≤ 255 ∧ 0 ≤ s.ry ∧ s.ry ≤ 255

instance (s : SysState) : Decidable (rightInRange s) := by
  unfold rightInRange; infer_instance

theorem applyROp_rightInRange (sens : ℚ) (s : SysState) (op : ROp) :
    rightInRange (applyROp sens s op) := by
  cases op with
  | motion dx dy =>
    have hx : (applyROp sens s (.motion dx dy)).rx =
        max (min (s.rx + truncQ (dx * sens)) 255) 0 := rfl
    have hy : (applyROp sens s (.motion dx dy)).ry =
        max (min (s.ry + truncQ (dy * sens)) 255) 0 := rfl
    refine ⟨?_, ?_, ?_, ?_⟩ <;> simp only [hx, hy] <;> omega
  | reset =>
    exact ⟨by norm_num [applyROp, fire_reset, reset_right_analog],
      by norm_num [applyROp, fire_reset, reset_right_analog],
      by norm_num [applyROp, fire_reset, reset_right_analog],
      by norm_num [applyROp, fire_reset, reset_right_analog]⟩

theorem runROps_rightInRange (sens : ℚ) (ops : List ROp) (s : SysState)
    (h : rightInRange s) : rightInRange (runROps sens s ops) := by
  induction ops generalizing s with
  | nil => exact h
  | cons op rest ih => exact ih _ (applyROp_rightInRange sens s op)

/-- C3: for every sequence of motion updates and decay resets, with any
deltas and any sensitivity > 0, both right-stick components stay within
`[0, 255]` after every operation (every prefix of the sequence, run from
the initial state, lands in range). -/
theorem right_analog_bounds_invariant (sens : ℚ) (ops : List ROp) (n : Nat)
    (hs : 0 < sens) :
    rightInRange (runROps sens initState (ops.take n)) := by
  exact runROps_rightInRange sens (ops.take n) initState
    (by constructor <;> norm_num [initState])

/-- Witness for `right_analog_bounds_invariant`: sensitivity 1, a motion of
(1000, -1000) followed by a reset, both prefixes in range. -/
theorem right_analog_bounds_invariant_witness :
    (0 : ℚ) < 1 ∧
    rightInRange (runROps 1 initState ([ROp.motion 1000 (-1000), ROp.reset].take 2)) :=
  ⟨by norm_num,
   right_analog_bounds_invariant 1 [ROp.motion 1000 (-1000), ROp.reset] 2
     (by norm_num)⟩

/-- C8: when the decay timer fires it sets the right-stick state to exactly
(128, 128), emits exactly that pair (`ABS_RX` with the flush suppressed,
then `ABS_RY`), and modifies nothing else: the left-stick booleans, the
pressed-key set and the halt flag are unchanged, and no other axis or
button emission occurs. -/
theorem fire_reset_effect (s : SysState) :
    (fire_reset s).1.rx = 128 ∧
    (fire_reset s).1.ry = 128 ∧
    (fire_reset s).2 = [⟨.ABS_RX, 128, false⟩, ⟨.ABS_RY, 128, true⟩] ∧
    (fire_reset s).1.leftW = s.leftW ∧
    (fire_reset s).1.leftA = s.leftA ∧
    (fire_reset s).1.leftS = s.leftS ∧
    (fire_reset s).1.leftD = s.leftD ∧
    (fire_reset s).1.pressed_keys = s.pressed_keys ∧
    (fire_reset s).1.halt_inputs = s.halt_inputs :=
  ⟨rfl, rfl, rfl, rfl, rfl, rfl, rfl, rfl, rfl⟩

/-- C9: before any motion event the right-stick state is (0, 0) with no
decay reset pending, so the first motion update (10, 0) at sensitivity 1
starts from (0, 0) and yields (10, 0) — not (138, 128) — and in particular
leaves the state away from the centre (128, 128). -/
theorem right_analog_initial_state :
    initState.rx = 0 ∧ initState.ry = 0 ∧ initState.pendingTimer = none ∧
    (update_right_analog 1 initState 10 0).1.rx = 10 ∧
    (update_right_analog 1 initState 10 0).1.ry = 0 ∧
    ((update_right_analog 1 initState 10 0).1.rx,
     (update_right_analog 1 initState 10 0).1.ry) ≠ ((138 : Int), 128) ∧
    ((update_right_analog 1 initState 10 0).1.rx,
     (update_right_analog 1 initState 10 0).1.ry) ≠ ((128 : Int), 128) := by
  have h10 : truncQ (10 : ℚ) = 10 := by norm_num [truncQ]
  have h0 : truncQ (0 : ℚ) = 0 := by norm_num [truncQ]
  refine ⟨rfl, rfl, rfl, ?_, ?_, ?_, ?_⟩ <;>
    simp [update_right_analog, schedule_right_analog_reset, initState,
      h10, h0]

/-- `int(value in (1, 2))`: the button value emitted by `emit_button`. -/
def btnVal (value : Int) : Int := if value = 1 ∨ value = 2 then 1 else 0

/-- The `pressed_keys` update of the keyboard listener (script lines
204-208): press or auto-repeat stores the key, release pops it, any other
value leaves the dictionary unchanged. -/
def updatePressed (s : SysState) (key : LKey) (value : Int) : SysState :=
  if value = 1 ∨ value = 2 then
    { s with pressed_keys := fun k => if k = key then true else s.pressed_keys k }
  else if value = 0 then
    { s with pressed_keys := fun k => if k = key then false else s.pressed_keys k }
  else s

/-- `check_force_quit` condition (script lines 165-169): CTRL, ALT and Q
all currently pressed. -/
def check_force_quit (s : SysState) : Bool :=
  s.pressed_keys .CTRL && s.pressed_keys .ALT && s.pressed_keys .Q

/-- `left_analog[key_name] = (value in (1, 2))` (script line 219) for a
W/A/S/D key; other keys leave the four booleans unchanged. -/
def setLeftKey (s : SysState) (key : LKey) (b : Bool) : SysState :=
  match key with
  | .W => { s with leftW := b }
  | .A => { s with leftA := b }
  | .S => { s with leftS := b }
  | .D => { s with leftD := b }
  | _ => s

/-- The state change of the routing block (script lines 216-251): only a
W/A/S/D key mutates further state (its `left_analog` boolean). -/
def routeState (s : SysState) (key : LKey) (value : Int) : SysState :=
  if key = .W ∨ key = .A ∨ key = .S ∨ key = .D then
    setLeftKey s key (value = 1 ∨ value = 2)
  else s

/-- The emissions of the routing block (script lines 212-251), in program
order: the ALT recompute, the W/A/S/D recompute (after the boolean is
updated), the eight `emit_button` mappings, and the four d-pad axis writes.
`s1` is the state after the `pressed_keys` update. -/
def routeEmits (s1 : SysState) (key : LKey) (value : Int) : List Emission :=
  (if key = .ALT then left_analog_emissions s1 else [])
  ++ (if key = .W ∨ key = .A ∨ key = .S ∨ key = .D then
        left_analog_emissions (routeState s1 key value) else [])
  ++ (if key = .SPACE then [⟨.BTN_A, btnVal value, true⟩] else [])
  ++ (if key = .Q then [⟨.BTN_X, btnVal value, true⟩] else [])
  ++ (if key = .E then [⟨.BTN_Y, btnVal value, true⟩] else [])
  ++ (if key = .R then [⟨.BTN_B, btnVal value, true⟩] else [])
  ++ (if key = .CTRL then [⟨.BTN_TL, btnVal value, true⟩] else [])
  ++ (if key = .SHIFT then [⟨.BTN_TR2, btnVal value, true⟩] else [])
  ++ (if key = .ENTER then [⟨.BTN_START, btnVal value, true⟩] else [])
  ++ (if key = .M then [⟨.BTN_SELECT, btnVal value, true⟩] else [])
  ++ (if key = .T then
        [⟨.ABS_HAT0Y, if value = 1 ∨ value = 2 then -1 else 0, true⟩] else [])
  ++ (if key = .G then
        [⟨.ABS_HAT0Y, if value = 1 ∨ value = 2 then 1 else 0, true⟩] else [])
  ++ (if key = .N1 then
        [⟨.ABS_HAT0X, if value = 1 ∨ value = 2 then -1 else 0, true⟩] else [])
  ++ (if key = .N2 then
        [⟨.ABS_HAT0X, if value = 1 ∨ value = 2 then 1 else 0, true⟩] else [])

/-- The keyboard listener's processing of a mapped, non-APOSTROPHE key once
the halt gate has been passed (script lines 204-251): update
`pressed_keys`, run the force-quit check (`exit(0)` is modelled by the
`true` flag, cutting off the rest of the handler), then route.  The third
component is the quit flag. -/
def kbRoute (s : SysState) (key : LKey) (value : Int) :
    SysState × List Emission × Bool :=
  if check_force_quit (updatePressed s key value) then
    (updatePressed s key value, [], true)
  else
    (routeState (updatePressed s key value) key value,
     routeEmits (updatePressed s key value) key value, false)

/-- One iteration of `evdev_keyboard_listener`'s loop (script lines
181-251): ignore non-`EV_KEY` events and unmapped codes; handle APOSTROPHE
before the halt check (press sets `halt_inputs`, release clears it, repeat
does nothing); drop everything else while halted; otherwise route. -/
def kbStep (s : SysState) (e : RawEvent) : SysState × List Emission × Bool :=
  if e.etype ≠ 1 then (s, [], false)
  else
    match key_map e.code with
    | none => (s, [], false)
    | some key =>
      if key = .APOSTROPHE then
        if e.value = 1 then ({ s with halt_inputs := true }, [], false)
        else if e.value = 0 then ({ s with halt_inputs := false }, [], false)
        else (s, [], false)
      else if s.halt_inputs then (s, [], false)
      else kbRoute s key e.value

/-- One iteration of `evdev_mouse_listener`'s loop (script lines 262-280):
drop every event while halted; `EV_REL` events feed `update_right_analog`
when the delta is non-zero; `EV_KEY` events on the three mouse buttons emit
`BTN_B` / `BTN_TL2` / `BTN_MODE` with value `int(event.value == 1)`
(`BTN_LEFT = 272`, `BTN_RIGHT = 273`, `BTN_MIDDLE = 274`). -/
def mouseStep (sens : ℚ) (s : SysState) (e : RawEvent) :
    SysState × List Emission :=
  if s.halt_inputs then (s, [])
  else if e.etype = 2 then
    let dx : Int := if e.code = 0 then e.value else 0
    let dy : Int := if e.code ≠ 0 ∧ e.code = 1 then e.value else 0
    if dx ≠ 0 ∨ dy ≠ 0 then update_right_analog sens s dx dy else (s, [])
  else if e.etype = 1 then
    if e.code = 272 then (s, [⟨.BTN_B, if e.value = 1 then 1 else 0, true⟩])
    else if e.code = 273 then
      (s, [⟨.BTN_TL2, if e.value = 1 then 1 else 0, true⟩])
    else if e.code = 274 then
      (s, [⟨.BTN_MODE, if e.value = 1 then 1 else 0, true⟩])
    else (s, [])
  else (s, [])

/-- Run the keyboard loop over a list of events; `exit(0)` stops the
process, so processing stops at the first quitting event.  Returns the
final state and whether the process quit. -/
def runKb (s : SysState) : List RawEvent → SysState × Bool
  | [] => (s, false)
  | e :: es =>
    let r := kbStep s e
    if r.2.2 then (r.1, true) else runKb r.1 es

/-- Run the keyboard loop over a list of events, also collecting all
emissions in order. -/
def runKbE (s : SysState) : List RawEvent → SysState × List Emission × Bool
  | [] => (s, [], false)
  | e :: es =>
    let r := kbStep s e
    if r.2.2 then (r.1, r.2.1, true)
    else
      let rest := runKbE r.1 es
      (rest.1, r.2.1 ++ rest.2.1, rest.2.2)

theorem setLeftKey_pressed (s : SysState) (k : LKey) (b : Bool) :
    (setLeftKey s k b).pressed_keys = s.pressed_keys := by
  cases k <;> rfl

theorem routeState_pressed (s : SysState) (k : LKey) (v : Int) :
    (routeState s k v).pressed_keys = s.pressed_keys := by
  unfold routeState
  split
  · exact setLeftKey_pressed s k _
  · rfl

theorem check_force_quit_congr (s1 s2 : SysState)
    (h : s1.pressed_keys = s2.pressed_keys) :
    check_force_quit s1 = check_force_quit s2 := by
  unfold check_force_quit
  rw [h]

theorem kbRoute_pressed_quit (s : SysState) (k : LKey) (v : Int) :
    (kbRoute s k v).1.pressed_keys = (updatePressed s k v).pressed_keys ∧
    (kbRoute s k v).2.2 = check_force_quit (updatePressed s k v) := by
  unfold kbRoute
  split
  · rename_i hck
    exact ⟨rfl, by simp [hck]⟩
  · rename_i hck
    rw [Bool.not_eq_true] at hck
    exact ⟨routeState_pressed _ _ _, by simp [hck]⟩

/-- Every keyboard step either leaves `pressed_keys` untouched and does not
quit, or goes through the routing block: its `pressed_keys` result is the
dictionary update for some mapped key and its quit flag is exactly the
force-quit check on that updated dictionary. -/
theorem kbStep_pressed_quit (s : SysState) (e : RawEvent) :
    ((kbStep s e).1.pressed_keys = s.pressed_keys ∧
      (kbStep s e).2.2 = false) ∨
    (∃ k,
      (kbStep s e).1.pressed_keys = (updatePressed s k e.value).pressed_keys ∧
      (kbStep s e).2.2 = check_force_quit (updatePressed s k e.value)) := by
  unfold kbStep
  split
  · exact Or.inl ⟨rfl, rfl⟩
  · split
    · exact Or.inl ⟨rfl, rfl⟩
    · rename_i key _
      split
      · split
        · exact Or.inl ⟨rfl, rfl⟩
        · split
          · exact Or.inl ⟨rfl, rfl⟩
          · exact Or.inl ⟨rfl, rfl⟩
      · split
        · exact Or.inl ⟨rfl, rfl⟩
        · exact Or.inr ⟨key, kbRoute_pressed_quit s key e.value⟩

theorem kbStep_quit_check (s : SysState) (e : RawEvent)
    (h : (kbStep s e).2.2 = true) :
    check_force_quit (kbStep s e).1 = true := by
  rcases kbStep_pressed_quit s e with ⟨_, hq⟩ | ⟨k, hp, hq⟩
  · rw [h] at hq; cases hq
  · rw [check_force_quit_congr _ _ hp, ← hq, h]

theorem kbStep_noquit_check (s : SysState) (e : RawEvent)
    (hs : check_force_quit s = false) (h : (kbStep s e).2.2 = false) :
    check_force_quit (kbStep s e).1 = false := by
  rcases kbStep_pressed_quit s e with ⟨hp, _⟩ | ⟨k, hp, hq⟩
  · rw [check_force_quit_congr _ _ hp, hs]
  · rw [check_force_quit_congr _ _ hp, ← hq, h]

theorem runKb_quit_iff (evs : List RawEvent) : ∀ s : SysState,
    check_force_quit s = false →
    ((runKb s evs).2 = true ↔
      ∃ n, check_force_quit (runKb s (evs.take n)).1 = true) := by
  induction evs with
  | nil =>
    intro s hs
    constructor
    · intro h; cases h
    · rintro ⟨n, hn⟩
      simp [runKb, List.take_nil] at hn
      rw [hn] at hs; cases hs
  | cons e es ih =>
    intro s hs
    by_cases hq : (kbStep s e).2.2 = true
    · constructor
      · intro _
        refine ⟨1, ?_⟩
        have h1 : runKb s ((e :: es).take 1) = ((kbStep s e).1, true) := by
          simp [runKb, hq]
        rw [h1]
        exact kbStep_quit_check s e hq
      · intro _
        simp [runKb, hq]
    · rw [Bool.not_eq_true] at hq
      have hs' : check_force_quit (kbStep s e).1 = false :=
        kbStep_noquit_check s e hs hq
      have heq : ∀ l, runKb s (e :: l) = runKb (kbStep s e).1 l := by
        intro l; simp [runKb, hq]
      constructor
      · intro h
        rw [heq] at h
        obtain ⟨n, hn⟩ := (ih (kbStep s e).1 hs').mp h
        refine ⟨n + 1, ?_⟩
        rw [List.take_succ_cons, heq]
        exact hn
      · rintro ⟨n, hn⟩
        match n with
        | 0 =>
          simp [runKb, List.take_zero] at hn
          rw [hn] at hs; cases hs
        | m + 1 =>
          rw [List.take_succ_cons, heq] at hn
          rw [heq]
          exact (ih _ hs').mpr ⟨m, hn⟩

/-- C5: for every sequence of keyboard events processed from the initial
state, the process force-quits (the keyboard loop reaches `exit(0)`) if and
only if at some moment — after the `pressed_keys` update of some processed
event — CTRL, ALT and Q are all simultaneously held; in particular a
sequence in which one of the three is released before all three are held
together never terminates the process. -/
theorem force_quit_iff (evs : List RawEvent) :
    (runKb initState evs).2 = true ↔
    ∃ n, check_force_quit (runKb initState (evs.take n)).1 = true :=
  runKb_quit_iff evs initState rfl

/-- C4: while `halt_inputs` is true, any keyboard event other than on the
APOSTROPHE gate key, and any mouse event at all, leaves the state unchanged
and produces zero emissions; an APOSTROPHE release merely clears the flag;
and with the flag clear a mapped non-APOSTROPHE key event is routed by the
normal (ungated) handler. -/
theorem halt_gate_behavior (sens : ℚ) (s : SysState) (e : RawEvent)
    (hh : s.halt_inputs = true) :
    (key_map e.code ≠ some .APOSTROPHE → kbStep s e = (s, [], false)) ∧
    mouseStep sens s e = (s, []) ∧
    kbStep s ⟨1, 40, 0⟩ = ({ s with halt_inputs := false }, [], false) ∧
    (∀ (s2 : SysState) (k : LKey) (v : Int) (c : Nat),
      s2.halt_inputs = false → key_map c = some k → k ≠ .APOSTROPHE →
      kbStep s2 ⟨1, c, v⟩ = kbRoute s2 k v) := by
  refine ⟨?_, ?_, ?_, ?_⟩
  · intro hne
    unfold kbStep
    split
    · rfl
    · cases hk : key_map e.code with
      | none => simp [hk]
      | some k =>
        have hka : ¬(k = .APOSTROPHE) := by
          intro h; exact hne (by rw [hk, h])
        simp [hk, hka, hh]
  · simp [mouseStep, hh]
  · rfl
  · intro s2 k v c h2 hkc hka
    unfold kbStep
    simp [hkc, hka, h2]

/-- Witness for `halt_gate_behavior`: in a halted state a W press is fully
dropped by both loops. -/
theorem halt_gate_behavior_witness :
    kbStep { initState with halt_inputs := true } ⟨1, 17, 1⟩ =
      ({ initState with halt_inputs := true }, [], false) ∧
    mouseStep 1 { initState with halt_inputs := true } ⟨1, 17, 1⟩ =
      ({ initState with halt_inputs := true }, []) :=
  ⟨(halt_gate_behavior 1 { initState with halt_inputs := true } ⟨1, 17, 1⟩
      rfl).1 (by decide),
   (halt_gate_behavior 1 { initState with halt_inputs := true } ⟨1, 17, 1⟩
      rfl).2.1⟩

theorem updatePressed_pressed_ne (s : SysState) (key : LKey) (v : Int)
    (k2 : LKey) (h : k2 ≠ key) :
    (updatePressed s key v).pressed_keys k2 = s.pressed_keys k2 := by
  unfold updatePressed
  split
  · simp [h]
  · split
    · simp [h]
    · rfl

theorem check_after_update_other (s : SysState) (key : LKey) (v : Int)
    (h1 : key ≠ .CTRL) (h2 : key ≠ .ALT) (h3 : key ≠ .Q) :
    check_force_quit (updatePressed s key v) = check_force_quit s := by
  unfold check_force_quit
  rw [updatePressed_pressed_ne s key v .CTRL (Ne.symm h1),
    updatePressed_pressed_ne s key v .ALT (Ne.symm h2),
    updatePressed_pressed_ne s key v .Q (Ne.symm h3)]

/-- C6: a key event on a d-pad key emits exactly one write on that key's
axis — T and G write `ABS_HAT0Y` (up = -1, down = +1), "1" and "2" write
`ABS_HAT0X` (left = -1, right = +1) — with the directional extreme on press
or auto-repeat and 0 on release, whatever the prior state: so the axis
returns to 0 on release of the currently-active key even if the opposite
key of the axis was pressed and released earlier (the last physical action
on the axis wins).  The only side condition is that the force-quit chord is
not currently complete (otherwise the process has already exited). -/
theorem dpad_axis_behavior (s : SysState) (v : Int)
    (hq : check_force_quit s = false) :
    (kbRoute s .T v).2.1 =
      [⟨.ABS_HAT0Y, if v = 1 ∨ v = 2 then -1 else 0, true⟩] ∧
    (kbRoute s .G v).2.1 =
      [⟨.ABS_HAT0Y, if v = 1 ∨ v = 2 then 1 else 0, true⟩] ∧
    (kbRoute s .N1 v).2.1 =
      [⟨.ABS_HAT0X, if v = 1 ∨ v = 2 then -1 else 0, true⟩] ∧
    (kbRoute s .N2 v).2.1 =
      [⟨.ABS_HAT0X, if v = 1 ∨ v = 2 then 1 else 0, true⟩] := by
  refine ⟨?_, ?_, ?_, ?_⟩ <;>
    rw [kbRoute,
      check_after_update_other s _ v (by decide) (by decide) (by decide),
      hq] <;>
    simp [routeEmits]

/-- Witness for `dpad_axis_behavior`: from the initial state, a release
(value 0) of each d-pad key emits 0 on its axis. -/
theorem dpad_axis_behavior_witness :
    (kbRoute initState .T 0).2.1 = [⟨.ABS_HAT0Y, 0, true⟩] ∧
    (kbRoute initState .G 0).2.1 = [⟨.ABS_HAT0Y, 0, true⟩] ∧
    (kbRoute initState .N1 0).2.1 = [⟨.ABS_HAT0X, 0, true⟩] ∧
    (kbRoute initState .N2 0).2.1 = [⟨.ABS_HAT0X, 0, true⟩] := by
  have h := dpad_axis_behavior initState 0 rfl
  simpa using h

/-- C7 (amended): for the keyboard-mapped buttons (SPACE, Q, E, R, CTRL,
SHIFT, ENTER, M) an auto-repeat event (value 2) is processed exactly like a
press event (value 1): identical state change, identical emissions.  For
the mouse buttons (left, right, middle) the code emits
`int(event.value == 1)`, so an auto-repeat event is processed exactly like
a release (value 0), not like a press. -/
theorem repeat_event_processing (s : SysState) (sens : ℚ) (k : LKey)
    (c : Nat)
    (hk : k = .SPACE ∨ k = .Q ∨ k = .E ∨ k = .R ∨ k = .CTRL ∨
      k = .SHIFT ∨ k = .ENTER ∨ k = .M)
    (hc : c = 272 ∨ c = 273 ∨ c = 274) :
    kbRoute s k 2 = kbRoute s k 1 ∧
    mouseStep sens s ⟨1, c, 2⟩ = mouseStep sens s ⟨1, c, 0⟩ := by
  rcases hk with rfl | rfl | rfl | rfl | rfl | rfl | rfl | rfl <;>
    rcases hc with rfl | rfl | rfl <;> exact ⟨rfl, rfl⟩

/-- Witness for `repeat_event_processing`: SPACE and the left mouse
button. -/
theorem repeat_event_processing_witness :
    kbRoute initState .SPACE 2 = kbRoute initState .SPACE 1 ∧
    mouseStep 1 initState ⟨1, 272, 2⟩ = mouseStep 1 initState ⟨1, 272, 0⟩ :=
  repeat_event_processing initState 1 .SPACE 272 (Or.inl rfl) (Or.inl rfl)

/-- Counterexample to C7 as stated: a repeat (value 2) on the left mouse
button emits `BTN_B` value 0 — a release — while a press emits value 1, so
repeats are not treated identically to press for the mouse buttons. -/
theorem mouse_repeat_counterexample :
    (mouseStep 1 initState ⟨1, 272, 2⟩).2 = [⟨.BTN_B, 0, true⟩] ∧
    (mouseStep 1 initState ⟨1, 272, 1⟩).2 = [⟨.BTN_B, 1, true⟩] ∧
    ([⟨.BTN_B, 0, true⟩] : List Emission) ≠ [⟨.BTN_B, 1, true⟩] :=
  ⟨rfl, rfl, by decide⟩

/-- C10: a W/A/S/D key event arriving while `halt_inputs` is true changes
neither the left-stick booleans nor anything else and emits nothing.  In
the concrete run W-press, APOSTROPHE-press, W-release (dropped),
APOSTROPHE-release: the final state still records W as held with the halt
flag clear, the only emissions are the deflection (0, -32000) from the
W press, and the next movement-key event (an S press) recomputes from the
stale state — W still held — emitting (0, 0). -/
theorem halted_wasd_left_stick (s : SysState) (e : RawEvent)
    (hh : s.halt_inputs = true) (he : e.etype = 1)
    (hcode : e.code = 17 ∨ e.code = 30 ∨ e.code = 31 ∨ e.code = 32) :
    kbStep s e = (s, [], false) ∧
    (runKbE initState
        [⟨1, 17, 1⟩, ⟨1, 40, 1⟩, ⟨1, 17, 0⟩, ⟨1, 40, 0⟩]).1.leftW = true ∧
    (runKbE initState
        [⟨1, 17, 1⟩, ⟨1, 40, 1⟩, ⟨1, 17, 0⟩, ⟨1, 40, 0⟩]).1.halt_inputs =
      false ∧
    (runKbE initState
        [⟨1, 17, 1⟩, ⟨1, 40, 1⟩, ⟨1, 17, 0⟩, ⟨1, 40, 0⟩]).2.1 =
      [⟨.ABS_X, 0, false⟩, ⟨.ABS_Y, -32000, true⟩] ∧
    (kbStep (runKbE initState
        [⟨1, 17, 1⟩, ⟨1, 40, 1⟩, ⟨1, 17, 0⟩, ⟨1, 40, 0⟩]).1
        ⟨1, 31, 1⟩).2.1 =
      [⟨.ABS_X, 0, false⟩, ⟨.ABS_Y, 0, true⟩] := by
  refine ⟨?_, by decide, by decide, by decide, by decide⟩
  obtain ⟨t, c, v⟩ := e
  simp only at he
  subst he
  rcases hcode with h | h | h | h <;> (simp only at h; subst h) <;>
    simp [kbStep, key_map, hh]

/-- Witness for `halted_wasd_left_stick`: a halted W release is fully
dropped. -/
theorem halted_wasd_left_stick_witness :
    kbStep { initState with halt_inputs := true } ⟨1, 17, 0⟩ =
      ({ initState with halt_inputs := true }, [], false) :=
  (halted_wasd_left_stick { initState with halt_inputs := true } ⟨1, 17, 0⟩
    rfl rfl (Or.inl rfl)).1
